import Mathlib

/-
Verification of the storage abstraction layer (wsd/Storage.cpp, wsd/Storage.hpp,
common/Util.cpp): a shallow embedding of the WOPI-backed storage backend and
proofs about its upload-response interpretation, redirect following, locking,
host authorization and URI sanitization.

External collaborators (HTTP transport, JSON parser, filesystem) are modelled
by explicit parameters: a parsed JSON body is an Option record, a network
round-trip outcome is a constructor of an explicit response type, and the
redirect-serving host is a function from hop index to response.
-/

namespace StorageProof

/-! ## Data model: UploadResult (Storage.hpp, class UploadResult) -/

/-- The Result enum of StorageBase::UploadResult. -/
inductive UploadKind
| OK
| DISKFULL
| UNAUTHORIZED
| DOC_CHANGED
| CONFLICT
| FAILED
deriving DecidableEq, Repr

/-- StorageBase::UploadResult: a result code, a reason message and the
optional save-as name and url. -/
structure UploadResult where
(result : UploadKind)
(reason : String)
(saveAsName : String)
(saveAsUrl : String)
deriving DecidableEq, Repr

/-- COOLStatusCode::DOC_CHANGED (Storage.hpp line 187). -/
def docChangedStatusCode : Nat := 1010

/-! ## JSON bodies

The JSON parser (JsonUtil) is not part of the embedded sources; its contract is
modelled from the spec: parseJSON either fails or yields an object, and
getJSONValue or findJSONValue of an absent field yields the default value
(0 for unsigned, empty for strings). A parsed upload-response body is therefore
a record of the fields the code reads, absent fields already defaulted. -/

/-- Modelled from the spec: the fields of an upload response body that
WopiStorage::handleUploadToStorageResponse reads via JsonUtil (which is not
among the embedded sources): COOLStatusCode, LOOLStatusCode,
LastModifiedTime, Name, Url; a missing field reads as its default. -/
structure UploadRespBody where
(coolStatusCode : Nat)
(loolStatusCode : Nat)
(lastModifiedTime : String)
(name : String)
(url : String)
deriving DecidableEq, Repr

/-! ## WopiStorage state touched by upload-response handling -/

/-- The slice of WopiStorage and StorageBase state that
handleUploadToStorageResponse mutates: the FileInfo modified timestamp and the
force-save flag. -/
structure WopiRespState where
(fileInfoModifiedTime : String)
(forceSaveFlag : Bool)
deriving DecidableEq, Repr

/-- WopiStorage::WopiUploadDetails (Storage.hpp lines 640 to 649), restricted
to the fields that influence the result. -/
structure WopiUploadDetails where
(httpResponseCode : Int)
(isSaveAs : Bool)
(isRename : Bool)
deriving DecidableEq, Repr

/-- WopiStorage::handleUploadToStorageResponse (Storage.cpp lines 1552 to 1690).
The body parse outcome is given as an Option record. Returns the updated
state together with the UploadResult. The result starts as FAILED with the
response string as reason; a 200 sets OK, records the LastModifiedTime and the
save-as name and url when the body parses, and clears the force-save flag; 413
sets DISKFULL; 401 and 403 set UNAUTHORIZED; 409 sets CONFLICT, upgraded to
DOC_CHANGED when the parsed body carries COOLStatusCode or LOOLStatusCode
equal to 1010; anything else sets FAILED. -/
def handleUploadToStorageResponse (details : WopiUploadDetails)
    (parsed : Option UploadRespBody) (responseString : String)
    (st : WopiRespState) : WopiRespState × UploadResult :=
  if details.httpResponseCode = 200 then
    match parsed with
    | some body =>
      let st2 : WopiRespState := WopiRespState.mk body.lastModifiedTime false
      if details.isSaveAs || details.isRename then
        (st2, UploadResult.mk UploadKind.OK responseString body.name body.url)
      else
        (st2, UploadResult.mk UploadKind.OK responseString "" "")
    | none => (st, UploadResult.mk UploadKind.OK responseString "" "")
  else if details.httpResponseCode = 413 then
    (st, UploadResult.mk UploadKind.DISKFULL responseString "" "")
  else if details.httpResponseCode = 401 ∨ details.httpResponseCode = 403 then
    (st, UploadResult.mk UploadKind.UNAUTHORIZED responseString "" "")
  else if details.httpResponseCode = 409 then
    match parsed with
    | some body =>
      if body.coolStatusCode = docChangedStatusCode ∨
          body.loolStatusCode = docChangedStatusCode then
        (st, UploadResult.mk UploadKind.DOC_CHANGED responseString "" "")
      else
        (st, UploadResult.mk UploadKind.CONFLICT responseString "" "")
    | none => (st, UploadResult.mk UploadKind.CONFLICT responseString "" "")
  else
    (st, UploadResult.mk UploadKind.FAILED responseString "" "")

/-- The status-to-kind mapping exactly as the specification states it:
200 gives OK, 413 gives DISKFULL, 401 or 403 give UNAUTHORIZED, 409 gives
CONFLICT unless the body is JSON whose COOLStatusCode or LOOLStatusCode equals
1010 in which case DOC_CHANGED, and every other status gives FAILED. -/
def specUploadKind (status : Int) (parsed : Option UploadRespBody) : UploadKind :=
  if status = 200 then UploadKind.OK
  else if status = 413 then UploadKind.DISKFULL
  else if status = 401 ∨ status = 403 then UploadKind.UNAUTHORIZED
  else if status = 409 then
    match parsed with
    | some body =>
      if body.coolStatusCode = 1010 ∨ body.loolStatusCode = 1010 then
        UploadKind.DOC_CHANGED
      else UploadKind.CONFLICT
    | none => UploadKind.CONFLICT
  else UploadKind.FAILED

/-! ## URI model and sanitization (Storage.hpp lines 347 to 369)

A URI is modelled as scheme, authority, path and an ordered list of query
parameters (key and value), mirroring Poco::URI::getQueryParameters which
preserves order and duplicates. -/

/-- A URI: scheme, authority, path, ordered query parameters. -/
structure Uri where
(scheme : String)
(authority : String)
(path : String)
(query : List (String × String))
deriving DecidableEq, Repr

/-- The loop body of StorageBase::sanitizeUri: walk the query parameters and,
at the first parameter whose key is access_token, clear its value and stop
(the loop breaks after the first hit). -/
def clearFirstAccessToken : List (String × String) → List (String × String)
| [] => []
| (k, v) :: rest =>
  if k = "access_token" then (k, "") :: rest
  else (k, v) :: clearFirstAccessToken rest

/-- StorageBase::sanitizeUri (Storage.hpp lines 347 to 366): clear the value
of the first access_token query parameter, leaving everything else intact. -/
def sanitizeUri (uri : Uri) : Uri :=
  Uri.mk uri.scheme uri.authority uri.path (clearFirstAccessToken uri.query)

/-- StorageBase::setUri (Storage.hpp line 369): the stored URI becomes the
sanitized incoming URI. The StorageBase constructor (Storage.hpp line 204)
initializes the stored URI through this same function. -/
def setUri (uri : Uri) : Uri := sanitizeUri uri

/-- Does the URI carry a query parameter with key access_token and a
non-empty value? -/
def hasNonEmptyAccessToken (uri : Uri) : Bool :=
  uri.query.any (fun kv => kv.1 = "access_token" && kv.2 ≠ "")

/-- Number of access_token query parameters of a URI. -/
def accessTokenCount (uri : Uri) : Nat :=
  (uri.query.filter (fun kv => kv.1 = "access_token")).length

/-! ## Redirect following (Storage.cpp lines 774 to 925 and 1242 to 1321)

The HTTP transport is modelled by a server function from hop index to
response. A response carries a status code, the Location header target (only
meaningful for redirect statuses) and whether the body parses as JSON (only
meaningful for the metadata fetch on 200). -/

/-- RedirectionLimit (Storage.hpp line 29). -/
def RedirectionLimit : Nat := 21

/-- An HTTP response as seen by the redirect-following code. -/
structure HttpResp where
(code : Int)
(location : Uri)
(bodyIsJson : Bool)
deriving Repr

/-- The four redirect statuses the code checks for: 302 HTTP_FOUND,
301 HTTP_MOVED_PERMANENTLY, 307 HTTP_TEMPORARY_REDIRECT,
308 HTTP_PERMANENT_REDIRECT. -/
def isRedirectCode (code : Int) : Bool :=
  code = 302 || code = 301 || code = 307 || code = 308

/-- The error taxonomy of the storage layer exceptions that matter here. -/
inductive StorageErr
| unauthorizedRequest
| storageConnection
| storageSpaceLow
deriving DecidableEq, Repr

/-- Outcome of a metadata fetch: the thrown exception or success, the stored
URI after the call, and the number of network requests issued. -/
structure FetchOutcome where
(result : Except StorageErr Unit)
(storedUri : Uri)
(requests : Nat)
deriving Repr

/-- WopiStorage::getWOPIFileInfoForUri (Storage.cpp lines 774 to 918),
abstracted over the server. On a redirect status with remaining budget the
stored URI is replaced through setUri and the call recurses with budget minus
one; with budget zero the redirect status falls through to the failure branch
(it is neither 200 nor 403, so a StorageConnection error results). On 200 the
body must parse as JSON, otherwise an UnauthorizedRequest error results; on
403 an UnauthorizedRequest error, on any other terminal status a
StorageConnection error. -/
def getWOPIFileInfoForUri (server : Nat → HttpResp) (hop : Nat) :
    Nat → Uri → FetchOutcome
| redirectLimit, stored =>
  let resp := server hop
  if isRedirectCode resp.code then
    match redirectLimit with
    | Nat.succ n =>
      let rest := getWOPIFileInfoForUri server (hop + 1) n (setUri resp.location)
      FetchOutcome.mk rest.result rest.storedUri (rest.requests + 1)
    | Nat.zero =>
      FetchOutcome.mk (Except.error StorageErr.storageConnection) stored 1
  else if resp.code = 200 then
    if resp.bodyIsJson then FetchOutcome.mk (Except.ok ()) stored 1
    else FetchOutcome.mk (Except.error StorageErr.unauthorizedRequest) stored 1
  else if resp.code = 403 then
    FetchOutcome.mk (Except.error StorageErr.unauthorizedRequest) stored 1
  else
    FetchOutcome.mk (Except.error StorageErr.storageConnection) stored 1

/-- WopiStorage::getWOPIFileInfo (Storage.cpp lines 920 to 925): start the
fetch at the stored URI with hop budget RedirectionLimit. -/
def getWOPIFileInfo (server : Nat → HttpResp) (stored : Uri) : FetchOutcome :=
  getWOPIFileInfoForUri server 0 RedirectionLimit stored

/-- Outcome of a document download: the jailed path or the thrown exception,
and the number of network requests issued. -/
structure DownloadOutcome where
(result : Except StorageErr String)
(requests : Nat)
deriving Repr

/-- WopiStorage::downloadDocument (Storage.cpp lines 1242 to 1321), abstracted
over the server. Disk space is checked before each request: when low, a
StorageSpaceLow error is thrown before any network traffic. A 200 succeeds
with the jailed path; a redirect status recurses with budget minus one while
budget remains, and raises a StorageConnection error at budget zero; any other
status raises a StorageConnection error. The stored URI is not touched. -/
def downloadDocument (server : Nat → HttpResp) (diskOk : Bool)
    (jailedPath : String) : Nat → Nat → DownloadOutcome
| hop, redirectLimit =>
  if diskOk = false then
    DownloadOutcome.mk (Except.error StorageErr.storageSpaceLow) 0
  else
    let resp := server hop
    if resp.code = 200 then
      DownloadOutcome.mk (Except.ok jailedPath) 1
    else if isRedirectCode resp.code then
      match redirectLimit with
      | Nat.succ n =>
        let rest := downloadDocument server diskOk jailedPath (hop + 1) n
        DownloadOutcome.mk rest.result (rest.requests + 1)
      | Nat.zero =>
        DownloadOutcome.mk (Except.error StorageErr.storageConnection) 1
    else
      DownloadOutcome.mk (Except.error StorageErr.storageConnection) 1

/-- A server that answers the first chain.length requests with 302 redirects
to the successive chain entries and every later request with the final
response. -/
def chainServer (chain : List Uri) (final : HttpResp) (i : Nat) : HttpResp :=
  match chain.get? i with
  | some loc => HttpResp.mk 302 loc false
  | none => final

/-- WopiStorage::downloadStorageFileToLocal and its helpers start each
document download with hop budget RedirectionLimit (Storage.cpp lines 1182,
1202 and 1230). -/
def downloadFromUri (server : Nat → HttpResp) (diskOk : Bool)
    (jailedPath : String) : DownloadOutcome :=
  downloadDocument server diskOk jailedPath 0 RedirectionLimit

/-- A sample URI for concrete instantiations. -/
def sampleUri : Uri := Uri.mk "https" "wopihost" "/wopi/files/7" []

/-- A 200 response whose body parses as JSON. -/
def okJsonResp : HttpResp := HttpResp.mk 200 sampleUri true

/-- A 200 response whose body does not parse as JSON. -/
def okNonJsonResp : HttpResp := HttpResp.mk 200 sampleUri false

/-! ## Lock context (Storage.hpp lines 42 to 64, Storage.cpp lines 703 to 734
and 1090 to 1165)

Steady-clock time points are modelled as whole seconds (Int), so the
duration_cast to seconds in needsRefresh is the plain difference. -/

/-- LockContext (Storage.hpp lines 42 to 64). -/
structure LockCtx where
(supportsLocks : Bool)
(isLocked : Bool)
(lockToken : String)
(lastLockTime : Int)
(lockFailureReason : String)
deriving DecidableEq, Repr

/-- Outcome of the lock/unlock network round-trip: a response with its status
and the X-WOPI-LockFailureReason header value (empty when absent), or a
transport exception. -/
inductive LockHttpOutcome
| resp (status : Int) (failureReasonHdr : String)
| transportExn
deriving DecidableEq, Repr

/-- WopiStorage::updateLockState (Storage.cpp lines 1090 to 1165). Clears the
failure reason on entry; returns true at once without any request when locks
are unsupported; on a 200 response records the requested lock state and the
current time and returns true; on any other response records a non-empty
failure-reason header and returns false; on a transport exception returns
false. Result: return value, new lock context, number of network requests. -/
def updateLockState (ctx : LockCtx) (lock : Bool) (now : Int)
    (outcome : LockHttpOutcome) : Bool × LockCtx × Nat :=
  let ctx1 := LockCtx.mk ctx.supportsLocks ctx.isLocked ctx.lockToken
    ctx.lastLockTime ""
  if ctx.supportsLocks = false then (true, ctx1, 0)
  else
    match outcome with
    | LockHttpOutcome.resp status hdr =>
      if status = 200 then
        (true, LockCtx.mk ctx.supportsLocks lock ctx.lockToken now "", 1)
      else if hdr ≠ "" then
        (false, LockCtx.mk ctx.supportsLocks ctx.isLocked ctx.lockToken
          ctx.lastLockTime hdr, 1)
      else (false, ctx1, 1)
    | LockHttpOutcome.transportExn => (false, ctx1, 1)

/-- The failure reason the server supplied, empty for a transport exception. -/
def serverFailureReason : LockHttpOutcome → String
| LockHttpOutcome.resp _ hdr => hdr
| LockHttpOutcome.transportExn => ""

/-- Did the lock round-trip fail (non-200 response or transport exception)? -/
def lockRequestFailed : LockHttpOutcome → Bool
| LockHttpOutcome.resp status _ => decide (status ≠ 200)
| LockHttpOutcome.transportExn => true

/-- Default of the storage.wopi.locking.refresh configuration value
(Storage.cpp line 719). -/
def storageWopiLockingRefreshDefault : Int := 900

/-- LockContext::needsRefresh (Storage.cpp lines 717 to 723): locks are
supported, currently locked, the configured refresh interval is positive, and
the elapsed seconds since the last lock time reach the interval. -/
def needsRefresh (refreshSeconds : Int) (ctx : LockCtx) (now : Int) : Bool :=
  ctx.supportsLocks && ctx.isLocked && decide (0 < refreshSeconds) &&
    decide (refreshSeconds ≤ now - ctx.lastLockTime)

/-! ## Asynchronous upload (Storage.hpp lines 156 to 316 and 622 to 637,
Storage.cpp lines 1323 to 1550) -/

/-- StorageBase::AsyncUpload::State (Storage.hpp lines 160 to 166). -/
inductive AsyncState
| None
| Running
| Error
| Complete
deriving DecidableEq, Repr

/-- StorageBase::AsyncUpload (Storage.hpp lines 157 to 183). -/
structure AsyncUpload where
(state : AsyncState)
(result : UploadResult)
deriving DecidableEq, Repr

/-- UploadResult constructed from a kind and a reason, empty save-as fields. -/
def failedResult (reason : String) : UploadResult :=
  UploadResult.mk UploadKind.FAILED reason "" ""

/-- UploadResult(Result::OK): empty reason and save-as fields. -/
def okUploadResult : UploadResult := UploadResult.mk UploadKind.OK "" "" ""

/-- Error or Complete. -/
def isTerminalState : AsyncState → Bool
| AsyncState.Error => true
| AsyncState.Complete => true
| AsyncState.None => false
| AsyncState.Running => false

/-- What one call to WopiStorage::uploadLocalFileToStorageAsync does: the
in-flight flag afterwards, the list of callback invocations the call itself
makes (the ScopedInvokeAsyncUploadCallback destructor fires exactly once with
the last argument set), and whether a network request was dispatched. -/
structure AsyncCallOutcome where
(newInFlight : Bool)
(invocations : List AsyncUpload)
(dispatched : Bool)
deriving DecidableEq, Repr

/-- WopiStorage::uploadLocalFileToStorageAsync (Storage.cpp lines 1351 to
1543). Arguments model the in-flight guard _uploadHttpSession, the stat of
the local file, whether getHttpSession succeeds, and whether the async
dispatch succeeds (exceptions after the session was created leave the guard
set). The scoped callback fires with Error and an empty-reason FAILED result
on the single-flight rejection, with Error and a reason on the other failure
paths, and with Running once the request is dispatched. -/
def uploadLocalFileToStorageAsync (inFlight fileStatGood sessionOk
    dispatchOk : Bool) : AsyncCallOutcome :=
  if inFlight then
    AsyncCallOutcome.mk true [AsyncUpload.mk AsyncState.Error (failedResult "")]
      false
  else if fileStatGood = false then
    AsyncCallOutcome.mk false
      [AsyncUpload.mk AsyncState.Error (failedResult "File not found.")] false
  else if sessionOk = false then
    AsyncCallOutcome.mk false
      [AsyncUpload.mk AsyncState.Error (failedResult "Internal error.")] false
  else if dispatchOk = false then
    AsyncCallOutcome.mk true
      [AsyncUpload.mk AsyncState.Error (failedResult "Internal error.")] false
  else
    AsyncCallOutcome.mk true [AsyncUpload.mk AsyncState.Running okUploadResult]
      true

/-- WopiStorage::queryLocalFileToStorageAsyncUploadState (Storage.hpp lines
631 to 637): Running with an OK result while an upload session is in flight,
None otherwise. -/
def queryLocalFileToStorageAsyncUploadState (inFlight : Bool) : AsyncUpload :=
  if inFlight then AsyncUpload.mk AsyncState.Running okUploadResult
  else AsyncUpload.mk AsyncState.None okUploadResult

/-- All callback invocations a single uploadLocalFileToStorageAsync call ever
produces: the invocations made during the call, followed by the finished
handler firing Complete with the interpreted response when a request was
dispatched (the transport invokes the finished handler exactly once per
dispatched request). -/
def asyncUploadEvents (out : AsyncCallOutcome) (details : WopiUploadDetails)
    (parsed : Option UploadRespBody) (responseString : String)
    (st : WopiRespState) : List AsyncUpload :=
  out.invocations ++
    (if out.dispatched then
      [AsyncUpload.mk AsyncState.Complete
        (handleUploadToStorageResponse details parsed responseString st).2]
    else [])

/-- The StorageBase default uploadLocalFileToStorageAsync (Storage.hpp lines
292 to 303): run the synchronous upload and invoke the callback once with
Complete and its result. -/
def storageBaseDefaultUploadAsyncEvents (syncResult : UploadResult) :
    List AsyncUpload :=
  [AsyncUpload.mk AsyncState.Complete syncResult]

/-- WopiStorage::uploadLocalFileToStorage (Storage.cpp lines 1545 to 1550):
ignore every argument and return FAILED with an empty reason, issuing no
network request (second component is the request count). -/
def wopiUploadLocalFileToStorage (_auth : String) (_lockCtx : LockCtx)
    (_saveAsPath _saveAsFilename : String) (_isRename : Bool) :
    UploadResult × Nat :=
  (UploadResult.mk UploadKind.FAILED "" "" "", 0)

/-! ## Host alias authorization (Storage.cpp lines 315 to 341,
Util.cpp lines 1141 to 1186) -/

/-- The configuration read by StorageBase::allowedAlias: whether the
alias_groups mode equals compat (case-insensitively), and the AllHosts set
(kept as a list; Util::matchRegex only needs membership and regex trials).
The first-host fallback FirstHost is threaded as explicit state. -/
structure AliasConfig where
(compatMode : Bool)
(allHosts : List String)

/-- Util::matchRegex (Util.cpp lines 1141 to 1179): an exact member of the
set matches; otherwise some entry, taken as a caseless regular expression,
must match the subject as a full-string match. The regular-expression engine
is abstracted as the function reFullMatch. -/
def matchRegex (reFullMatch : String → String → Bool) (set : List String)
    (subject : String) : Bool :=
  set.contains subject || set.any (fun v => reFullMatch v subject)

/-- StorageBase::allowedAlias (Storage.cpp lines 315 to 341): in compat mode
always allowed; with AllHosts empty, an empty FirstHost records the caller
authority and allows it, and a recorded FirstHost different from the
authority denies; with AllHosts non-empty, Util::matchRegex over AllHosts
decides. Returns the verdict and the FirstHost state afterwards. -/
def allowedAlias (cfg : AliasConfig) (reFullMatch : String → String → Bool)
    (firstHost : String) (authority : String) : Bool × String :=
  if cfg.compatMode then (true, firstHost)
  else if cfg.allHosts.isEmpty then
    if firstHost = "" then (true, authority)
    else if authority ≠ firstHost then (false, firstHost)
    else (true, firstHost)
  else if matchRegex reFullMatch cfg.allHosts authority = false then
    (false, firstHost)
  else (true, firstHost)

/-! ## Download source resolution (Storage.cpp lines 1168 to 1240)

The three possible downloadDocument invocations (template URI, FileUrl,
canonical contents URL) are abstracted by their outcomes. -/

/-- WopiStorage::downloadStorageFileToLocal (Storage.cpp lines 1168 to 1240):
a non-empty template URI is downloaded directly and any failure propagates; a
non-empty FileUrl from the metadata is tried next, StorageSpaceLow
propagating immediately and any other failure falling back to the canonical
contents URL; otherwise the contents URL is downloaded and its failures
propagate. -/
def downloadStorageFileToLocal (templateUri fileUrl : String)
    (tmplRes fileUrlRes contentsRes : Except StorageErr String) :
    Except StorageErr String :=
  if templateUri ≠ "" then tmplRes
  else if fileUrl ≠ "" then
    match fileUrlRes with
    | Except.ok p => Except.ok p
    | Except.error StorageErr.storageSpaceLow =>
      Except.error StorageErr.storageSpaceLow
    | Except.error _ => contentsRes
  else contentsRes

/-- A URI carrying two access_token query parameters. -/
def dupTokenUri : Uri :=
  Uri.mk "https" "wopihost" "/wopi/files/7"
    [("access_token", "secretA"), ("access_token", "secretB")]

lemma fetch_ok_aux (server : Nat → HttpResp) :
    ∀ (n limit hop : Nat) (stored : Uri),
      n ≤ limit →
      (∀ i, i < n → isRedirectCode (server (hop + i)).code = true) →
      (server (hop + n)).code = 200 →
      (server (hop + n)).bodyIsJson = true →
      (getWOPIFileInfoForUri server hop limit stored).result = Except.ok () := by
  intro n
  induction n with
  | zero =>
    intro limit hop stored _ _ h200 hjson
    rw [Nat.add_zero] at h200 hjson
    unfold getWOPIFileInfoForUri
    simp [h200, hjson, isRedirectCode]
  | succ m ih =>
    intro limit hop stored hle hred h200 hjson
    cases limit with
    | zero => omega
    | succ k =>
      have hr0 : isRedirectCode (server hop).code = true := by
        have := hred 0 (Nat.succ_pos m)
        rwa [Nat.add_zero] at this
      unfold getWOPIFileInfoForUri
      simp only [hr0, if_true]
      apply ih k (hop + 1) (setUri (server hop).location)
      · omega
      · intro i hi
        have := hred (i + 1) (by omega)
        have e : hop + (i + 1) = hop + 1 + i := by omega
        rwa [e] at this
      · have e : hop + Nat.succ m = hop + 1 + m := by omega
        rwa [e] at h200
      · have e : hop + Nat.succ m = hop + 1 + m := by omega
        rwa [e] at hjson

lemma fetch_conn_aux (server : Nat → HttpResp) :
    ∀ (limit hop : Nat) (stored : Uri),
      (∀ i, i ≤ limit → isRedirectCode (server (hop + i)).code = true) →
      (getWOPIFileInfoForUri server hop limit stored).result =
        Except.error StorageErr.storageConnection := by
  intro limit
  induction limit with
  | zero =>
    intro hop stored hred
    have hr0 : isRedirectCode (server hop).code = true := by
      have := hred 0 (Nat.le_refl 0)
      rwa [Nat.add_zero] at this
    unfold getWOPIFileInfoForUri
    simp [hr0]
  | succ k ih =>
    intro hop stored hred
    have hr0 : isRedirectCode (server hop).code = true := by
      have := hred 0 (Nat.zero_le _)
      rwa [Nat.add_zero] at this
    unfold getWOPIFileInfoForUri
    simp only [hr0, if_true]
    apply ih (hop + 1)
    intro i hi
    have := hred (i + 1) (by omega)
    have e : hop + (i + 1) = hop + 1 + i := by omega
    rwa [e] at this

lemma fetch_requests_le (server : Nat → HttpResp) :
    ∀ (limit hop : Nat) (stored : Uri),
      (getWOPIFileInfoForUri server hop limit stored).requests ≤ limit + 1 := by
  intro limit
  induction limit with
  | zero =>
    intro hop stored
    by_cases h : isRedirectCode (server hop).code = true
    · simp [getWOPIFileInfoForUri, h]
    · simp only [getWOPIFileInfoForUri, h, if_false, Bool.false_eq_true, ite_false]
      split_ifs <;> simp
  | succ k ih =>
    intro hop stored
    by_cases h : isRedirectCode (server hop).code = true
    · have := ih (hop + 1) (setUri (server hop).location)
      simp only [getWOPIFileInfoForUri, h, if_true]
      omega
    · simp only [getWOPIFileInfoForUri, h, if_false, Bool.false_eq_true, ite_false]
      split_ifs <;> simp

lemma download_ok_aux (server : Nat → HttpResp) (jailedPath : String) :
    ∀ (n limit hop : Nat),
      n ≤ limit →
      (∀ i, i < n → isRedirectCode (server (hop + i)).code = true) →
      (server (hop + n)).code = 200 →
      (downloadDocument server true jailedPath hop limit).result =
        Except.ok jailedPath := by
  intro n
  induction n with
  | zero =>
    intro limit hop hle hred h200
    rw [Nat.add_zero] at h200
    unfold downloadDocument
    simp [h200]
  | succ m ih =>
    intro limit hop hle hred h200
    cases limit with
    | zero => omega
    | succ k =>
      have hr0 : isRedirectCode (server hop).code = true := by
        have := hred 0 (Nat.succ_pos m)
        rwa [Nat.add_zero] at this
      have hn200 : ¬ (server hop).code = 200 := by
        intro hc
        rw [hc] at hr0
        exact absurd hr0 (by decide)
      unfold downloadDocument
      simp only [hn200, hr0, if_true, if_false, Bool.true_eq_false, ite_false]
      apply ih k (hop + 1)
      · omega
      · intro i hi
        have := hred (i + 1) (by omega)
        have e : hop + (i + 1) = hop + 1 + i := by omega
        rwa [e] at this
      · have e : hop + Nat.succ m = hop + 1 + m := by omega
        rwa [e] at h200

lemma download_conn_aux (server : Nat → HttpResp) (jailedPath : String) :
    ∀ (limit hop : Nat),
      (∀ i, i ≤ limit → isRedirectCode (server (hop + i)).code = true) →
      (downloadDocument server true jailedPath hop limit).result =
        Except.error StorageErr.storageConnection := by
  intro limit
  induction limit with
  | zero =>
    intro hop hred
    have hr0 : isRedirectCode (server hop).code = true := by
      have := hred 0 (Nat.le_refl 0)
      rwa [Nat.add_zero] at this
    have hn200 : ¬ (server hop).code = 200 := by
      intro hc
      rw [hc] at hr0
      exact absurd hr0 (by decide)
    unfold downloadDocument
    simp [hn200, hr0]
  | succ k ih =>
    intro hop hred
    have hr0 : isRedirectCode (server hop).code = true := by
      have := hred 0 (Nat.zero_le _)
      rwa [Nat.add_zero] at this
    have hn200 : ¬ (server hop).code = 200 := by
      intro hc
      rw [hc] at hr0
      exact absurd hr0 (by decide)
    unfold downloadDocument
    simp only [hn200, hr0, if_true, if_false, Bool.true_eq_false, ite_false]
    apply ih (hop + 1)
    intro i hi
    have := hred (i + 1) (by omega)
    have e : hop + (i + 1) = hop + 1 + i := by omega
    rwa [e] at this

lemma download_requests_le (server : Nat → HttpResp) (diskOk : Bool)
    (jailedPath : String) :
    ∀ (limit hop : Nat),
      (downloadDocument server diskOk jailedPath hop limit).requests ≤ limit + 1 := by
  intro limit
  induction limit with
  | zero =>
    intro hop
    by_cases hd : diskOk = false
    · unfold downloadDocument
      simp [hd]
    · by_cases h200 : (server hop).code = 200
      · unfold downloadDocument
        simp [hd, h200]
      · by_cases hr : isRedirectCode (server hop).code = true
        · unfold downloadDocument
          simp [hd, h200, hr]
        · unfold downloadDocument
          simp [hd, h200, hr]
  | succ k ih =>
    intro hop
    have hk := ih (hop + 1)
    cases diskOk with
    | false =>
      unfold downloadDocument
      simp
    | true =>
      by_cases h200 : (server hop).code = 200
      · unfold downloadDocument
        simp [h200]
      · by_cases hr : isRedirectCode (server hop).code = true
        · unfold downloadDocument
          simp [h200, hr]
          omega
        · unfold downloadDocument
          simp [h200, hr]

lemma chainServer_redirect (chain : List Uri) (final : HttpResp) (i : Nat)
    (hi : i < chain.length) :
    isRedirectCode ((chainServer chain final) i).code = true := by
  unfold chainServer
  rw [List.get?_eq_get hi]
  rfl

lemma chainServer_final (chain : List Uri) (final : HttpResp) (i : Nat)
    (hi : chain.length ≤ i) :
    (chainServer chain final) i = final := by
  unfold chainServer
  rw [List.get?_eq_none.mpr hi]

lemma any_token_false_of_filter_nil (l : List (String × String))
    (h : (l.filter (fun kv => kv.1 = "access_token")).length = 0) :
    l.any (fun kv => kv.1 = "access_token" && kv.2 ≠ "") = false := by
  induction l with
  | nil => rfl
  | cons kv t ih =>
    by_cases hk : kv.1 = "access_token"
    · exfalso
      rw [List.filter_cons] at h
      simp [hk] at h
    · rw [List.filter_cons] at h
      simp only [List.any_cons]
      rw [ih (by simpa [hk] using h)]
      simp [hk]

lemma clearFirst_no_nonempty (l : List (String × String))
    (h : (l.filter (fun kv => kv.1 = "access_token")).length ≤ 1) :
    (clearFirstAccessToken l).any
      (fun kv => kv.1 = "access_token" && kv.2 ≠ "") = false := by
  induction l with
  | nil => rfl
  | cons kv t ih =>
    by_cases hk : kv.1 = "access_token"
    · unfold clearFirstAccessToken
      rw [if_pos hk]
      simp only [List.any_cons]
      have hlen : ((kv :: t).filter
          (fun kv2 => kv2.1 = "access_token")).length =
          (t.filter (fun kv2 => kv2.1 = "access_token")).length + 1 := by
        simp [List.filter_cons, hk]
      have htail : (t.filter (fun kv2 => kv2.1 = "access_token")).length
          = 0 := by omega
      rw [any_token_false_of_filter_nil t htail]
      simp
    · unfold clearFirstAccessToken
      rw [if_neg hk]
      simp only [List.any_cons]
      rw [ih ?_]
      · simp [hk]
      · rw [List.filter_cons] at h
        simpa [hk] using h

lemma clearFirst_keys (l : List (String × String)) :
    (clearFirstAccessToken l).map Prod.fst = l.map Prod.fst := by
  induction l with
  | nil => rfl
  | cons kv t ih =>
    by_cases hk : kv.1 = "access_token"
    · unfold clearFirstAccessToken
      rw [if_pos hk]
      rfl
    · unfold clearFirstAccessToken
      rw [if_neg hk]
      simp [ih]

lemma clearFirst_others (l : List (String × String)) :
    (clearFirstAccessToken l).filter (fun kv => kv.1 ≠ "access_token") =
      l.filter (fun kv => kv.1 ≠ "access_token") := by
  induction l with
  | nil => rfl
  | cons kv t ih =>
    by_cases hk : kv.1 = "access_token"
    · unfold clearFirstAccessToken
      rw [if_pos hk]
      rw [List.filter_cons, List.filter_cons]
      simp only [hk]
      exact ih.symm ▸ rfl
    · unfold clearFirstAccessToken
      rw [if_neg hk]
      rw [List.filter_cons, List.filter_cons]
      simp only [ih]

lemma setUri_no_nonempty (u : Uri) (h : accessTokenCount u ≤ 1) :
    hasNonEmptyAccessToken (setUri u) = false := by
  unfold setUri sanitizeUri hasNonEmptyAccessToken
  exact clearFirst_no_nonempty u.query h

lemma fetch_stored_no_token (server : Nat → HttpResp) :
    ∀ (limit hop : Nat) (stored : Uri),
      hasNonEmptyAccessToken stored = false →
      (∀ i, accessTokenCount (server i).location ≤ 1) →
      hasNonEmptyAccessToken
        (getWOPIFileInfoForUri server hop limit stored).storedUri = false := by
  intro limit
  induction limit with
  | zero =>
    intro hop stored hst hloc
    by_cases h : isRedirectCode (server hop).code = true
    · simpa [getWOPIFileInfoForUri, h] using hst
    · simp only [getWOPIFileInfoForUri, h, if_false, Bool.false_eq_true,
        ite_false]
      split_ifs <;> simpa using hst
  | succ k ih =>
    intro hop stored hst hloc
    by_cases h : isRedirectCode (server hop).code = true
    · simp only [getWOPIFileInfoForUri, h, if_true]
      exact ih (hop + 1) (setUri (server hop).location)
        (setUri_no_nonempty _ (hloc hop)) hloc
    · simp only [getWOPIFileInfoForUri, h, if_false, Bool.false_eq_true,
        ite_false]
      split_ifs <;> simpa using hst

/-- Claim C1: for every upload completion handled by
WopiStorage::handleUploadToStorageResponse, the HTTP status code is mapped
totally and deterministically to the UploadResult kind: 200 gives OK, 413
gives DISKFULL, 401 or 403 give UNAUTHORIZED, 409 gives CONFLICT unless the
response body is JSON whose COOLStatusCode or LOOLStatusCode equals 1010 in
which case it gives DOC_CHANGED, and every other status gives FAILED. -/
theorem upload_response_kind_matches_spec (details : WopiUploadDetails)
    (parsed : Option UploadRespBody) (responseString : String)
    (st : WopiRespState) :
    (handleUploadToStorageResponse details parsed responseString st).2.result =
      specUploadKind details.httpResponseCode parsed := by
  cases parsed with
  | none =>
    simp only [handleUploadToStorageResponse, specUploadKind, docChangedStatusCode]
    split_ifs <;> rfl
  | some body =>
    simp only [handleUploadToStorageResponse, specUploadKind, docChangedStatusCode]
    split_ifs <;> rfl

/-- Claim C2, counterexample to the claim as stated: a redirect chain of
length 0 (at most 21) ending in a 200 response does not always make the
operation succeed. The metadata fetch fails with an UnauthorizedRequest error
when the 200 body is not valid JSON, and the document download fails with a
StorageSpaceLow error when local disk space is low, both despite the final
200. -/
theorem redirect_success_counterexample :
    (getWOPIFileInfo (chainServer [] okNonJsonResp) sampleUri).result =
      Except.error StorageErr.unauthorizedRequest
    ∧ (downloadFromUri (chainServer [] okJsonResp) false "path").result =
      Except.error StorageErr.storageSpaceLow := by
  exact ⟨rfl, rfl⟩

/-- Claim C2, amended: for every metadata fetch and every document download,
both started with hop budget 21 (RedirectionLimit): if the redirect chain has
length at most 21 and ends in a 200 response the operation succeeds — for the
metadata fetch provided the final body parses as JSON, for the download
provided local disk space suffices; if the chain is longer than 21 redirects
the operation terminates with a storage-connection error rather than
following further redirects; and the redirect recursion always terminates
because the hop budget strictly decreases on every hop — against any server
at most budget plus one requests are ever issued. -/
theorem bounded_redirect_following (chain : List Uri) (final : HttpResp)
    (stored : Uri) (jailedPath : String) (server : Nat → HttpResp)
    (diskOk : Bool) :
    (chain.length ≤ RedirectionLimit → final.code = 200 →
      final.bodyIsJson = true →
      (getWOPIFileInfo (chainServer chain final) stored).result = Except.ok ())
    ∧ (chain.length ≤ RedirectionLimit → final.code = 200 →
      (downloadFromUri (chainServer chain final) true jailedPath).result =
        Except.ok jailedPath)
    ∧ (RedirectionLimit < chain.length →
      (getWOPIFileInfo (chainServer chain final) stored).result =
        Except.error StorageErr.storageConnection)
    ∧ (RedirectionLimit < chain.length →
      (downloadFromUri (chainServer chain final) true jailedPath).result =
        Except.error StorageErr.storageConnection)
    ∧ (getWOPIFileInfo server stored).requests ≤ RedirectionLimit + 1
    ∧ (downloadFromUri server diskOk jailedPath).requests ≤
        RedirectionLimit + 1 := by
  unfold getWOPIFileInfo downloadFromUri
  refine ⟨?_, ?_, ?_, ?_, ?_, ?_⟩
  · intro hlen h200 hjson
    apply fetch_ok_aux (chainServer chain final) chain.length RedirectionLimit 0
      stored hlen
    · intro i hi
      rw [Nat.zero_add]
      exact chainServer_redirect chain final i hi
    · rw [Nat.zero_add, chainServer_final chain final chain.length (Nat.le_refl _)]
      exact h200
    · rw [Nat.zero_add, chainServer_final chain final chain.length (Nat.le_refl _)]
      exact hjson
  · intro hlen h200
    apply download_ok_aux (chainServer chain final) jailedPath chain.length
      RedirectionLimit 0 hlen
    · intro i hi
      rw [Nat.zero_add]
      exact chainServer_redirect chain final i hi
    · rw [Nat.zero_add, chainServer_final chain final chain.length (Nat.le_refl _)]
      exact h200
  · intro hlen
    apply fetch_conn_aux (chainServer chain final) RedirectionLimit 0 stored
    intro i hi
    rw [Nat.zero_add]
    exact chainServer_redirect chain final i (by omega)
  · intro hlen
    apply download_conn_aux (chainServer chain final) jailedPath RedirectionLimit 0
    intro i hi
    rw [Nat.zero_add]
    exact chainServer_redirect chain final i (by omega)
  · exact fetch_requests_le server RedirectionLimit 0 stored
  · exact download_requests_le server diskOk jailedPath RedirectionLimit 0

/-- Witness for bounded_redirect_following at concrete inputs: a direct 200
succeeds for both operations, and a 22-hop redirect chain fails both with a
storage-connection error. -/
theorem bounded_redirect_following_witness :
    (getWOPIFileInfo (chainServer [] okJsonResp) sampleUri).result =
      Except.ok ()
    ∧ (downloadFromUri (chainServer [] okJsonResp) true "path").result =
      Except.ok "path"
    ∧ (getWOPIFileInfo (chainServer (List.replicate 22 sampleUri) okJsonResp)
        sampleUri).result = Except.error StorageErr.storageConnection
    ∧ (downloadFromUri (chainServer (List.replicate 22 sampleUri) okJsonResp)
        true "path").result = Except.error StorageErr.storageConnection := by
  refine ⟨?_, ?_, ?_, ?_⟩
  · exact (bounded_redirect_following [] okJsonResp sampleUri "path"
      (chainServer [] okJsonResp) true).1 (by decide) rfl rfl
  · exact (bounded_redirect_following [] okJsonResp sampleUri "path"
      (chainServer [] okJsonResp) true).2.1 (by decide) rfl
  · exact (bounded_redirect_following (List.replicate 22 sampleUri) okJsonResp
      sampleUri "path" (chainServer [] okJsonResp) true).2.2.1 (by decide)
  · exact (bounded_redirect_following (List.replicate 22 sampleUri) okJsonResp
      sampleUri "path" (chainServer [] okJsonResp) true).2.2.2.1 (by decide)

/-- Claim C3: per WopiStorage instance at most one async upload is ever
Running (single-flight): a call to uploadLocalFileToStorageAsync while an
upload session is already in flight issues no network request and invokes the
callback exactly once, with state Error, and
queryLocalFileToStorageAsyncUploadState reports Running if and only if an
upload session is in flight. -/
theorem single_flight_async_upload (inFlight fileStatGood sessionOk
    dispatchOk : Bool) :
    (inFlight = true →
      (uploadLocalFileToStorageAsync inFlight fileStatGood sessionOk
        dispatchOk).dispatched = false
      ∧ (uploadLocalFileToStorageAsync inFlight fileStatGood sessionOk
          dispatchOk).invocations =
        [AsyncUpload.mk AsyncState.Error (failedResult "")])
    ∧ ((queryLocalFileToStorageAsyncUploadState inFlight).state =
        AsyncState.Running ↔ inFlight = true) := by
  constructor
  · intro h
    rw [h]
    exact ⟨rfl, rfl⟩
  · cases inFlight with
    | false =>
      simp [queryLocalFileToStorageAsyncUploadState]
    | true =>
      simp [queryLocalFileToStorageAsyncUploadState]

/-- Witness for single_flight_async_upload: an in-flight rejection at a
concrete state. -/
theorem single_flight_async_upload_witness :
    (uploadLocalFileToStorageAsync true true true true).dispatched = false
    ∧ (uploadLocalFileToStorageAsync true true true true).invocations =
      [AsyncUpload.mk AsyncState.Error (failedResult "")] :=
  (single_flight_async_upload true true true true).1 rfl

/-- Claim C4: for every call to uploadLocalFileToStorageAsync (on WopiStorage
and via the StorageBase default wrapping the synchronous upload), the
caller-supplied callback is invoked exactly once with a terminal state (Error
or Complete) per call, across the immediate single-flight rejection and every
failure path before or after dispatch. -/
theorem async_callback_exactly_once_terminal (inFlight fileStatGood sessionOk
    dispatchOk : Bool) (details : WopiUploadDetails)
    (parsed : Option UploadRespBody) (responseString : String)
    (st : WopiRespState) (syncResult : UploadResult) :
    (asyncUploadEvents
        (uploadLocalFileToStorageAsync inFlight fileStatGood sessionOk
          dispatchOk) details parsed responseString st).countP
      (fun e => isTerminalState e.state) = 1
    ∧ (storageBaseDefaultUploadAsyncEvents syncResult).countP
      (fun e => isTerminalState e.state) = 1 := by
  constructor
  · cases inFlight <;> cases fileStatGood <;> cases sessionOk <;>
      cases dispatchOk <;>
      simp [asyncUploadEvents, uploadLocalFileToStorageAsync, isTerminalState,
        List.countP_cons, List.countP_append]
  · simp [storageBaseDefaultUploadAsyncEvents, isTerminalState,
      List.countP_cons]

/-- Claim C9: for every input, the synchronous
WopiStorage::uploadLocalFileToStorage returns an UploadResult with kind
FAILED unconditionally and performs no network request. -/
theorem wopi_sync_upload_always_failed (auth : String) (lockCtx : LockCtx)
    (saveAsPath saveAsFilename : String) (isRename : Bool) :
    (wopiUploadLocalFileToStorage auth lockCtx saveAsPath saveAsFilename
      isRename).1.result = UploadKind.FAILED
    ∧ (wopiUploadLocalFileToStorage auth lockCtx saveAsPath saveAsFilename
      isRename).2 = 0 :=
  ⟨rfl, rfl⟩

/-- Claim C5: WopiStorage::updateLockState returns true immediately with no
network request when the lock context does not support locks; on a 200
response it sets isLocked to the requested value, refreshes lastLockTime and
returns true; on any non-200 response or transport exception it returns
false, records the server-supplied X-WOPI-LockFailureReason (empty when none
was supplied) and leaves isLocked and lastLockTime unchanged. -/
theorem update_lock_state_spec (ctx : LockCtx) (lock : Bool) (now : Int)
    (outcome : LockHttpOutcome) :
    (ctx.supportsLocks = false →
      (updateLockState ctx lock now outcome).1 = true
      ∧ (updateLockState ctx lock now outcome).2.2 = 0)
    ∧ (ctx.supportsLocks = true → ∀ hdr,
      outcome = LockHttpOutcome.resp 200 hdr →
      (updateLockState ctx lock now outcome).1 = true
      ∧ (updateLockState ctx lock now outcome).2.1.isLocked = lock
      ∧ (updateLockState ctx lock now outcome).2.1.lastLockTime = now)
    ∧ (ctx.supportsLocks = true → lockRequestFailed outcome = true →
      (updateLockState ctx lock now outcome).1 = false
      ∧ (updateLockState ctx lock now outcome).2.1.isLocked = ctx.isLocked
      ∧ (updateLockState ctx lock now outcome).2.1.lastLockTime =
          ctx.lastLockTime
      ∧ (updateLockState ctx lock now outcome).2.1.lockFailureReason =
          serverFailureReason outcome) := by
  refine ⟨?_, ?_, ?_⟩
  · intro h
    simp [updateLockState, h]
  · intro h hdr houtcome
    subst houtcome
    simp [updateLockState, h]
  · intro h hfail
    cases outcome with
    | transportExn =>
      simp [updateLockState, h, serverFailureReason]
    | resp status hdr =>
      have hne : ¬ status = 200 := by
        simpa [lockRequestFailed] using hfail
      by_cases hh : hdr = ""
      · simp [updateLockState, h, hne, hh, serverFailureReason]
      · simp [updateLockState, h, hne, hh, serverFailureReason]

/-- Witness for update_lock_state_spec: a concrete context exercising the
unsupported, success and failure branches. -/
theorem update_lock_state_spec_witness :
    ((updateLockState (LockCtx.mk false false "t" 0 "") true 5
        (LockHttpOutcome.resp 200 "")).1 = true
      ∧ (updateLockState (LockCtx.mk false false "t" 0 "") true 5
        (LockHttpOutcome.resp 200 "")).2.2 = 0)
    ∧ ((updateLockState (LockCtx.mk true false "t" 0 "") true 5
        (LockHttpOutcome.resp 200 "")).1 = true
      ∧ (updateLockState (LockCtx.mk true false "t" 0 "") true 5
        (LockHttpOutcome.resp 200 "")).2.1.isLocked = true
      ∧ (updateLockState (LockCtx.mk true false "t" 0 "") true 5
        (LockHttpOutcome.resp 200 "")).2.1.lastLockTime = 5)
    ∧ ((updateLockState (LockCtx.mk true true "t" 3 "") true 5
        (LockHttpOutcome.resp 409 "locked by another client")).1 = false
      ∧ (updateLockState (LockCtx.mk true true "t" 3 "") true 5
        (LockHttpOutcome.resp 409 "locked by another client")).2.1.isLocked =
          true
      ∧ (updateLockState (LockCtx.mk true true "t" 3 "") true 5
        (LockHttpOutcome.resp 409 "locked by another client")).2.1.lastLockTime
          = 3
      ∧ (updateLockState (LockCtx.mk true true "t" 3 "") true 5
        (LockHttpOutcome.resp 409
          "locked by another client")).2.1.lockFailureReason =
        serverFailureReason (LockHttpOutcome.resp 409
          "locked by another client")) :=
  ⟨(update_lock_state_spec (LockCtx.mk false false "t" 0 "") true 5
      (LockHttpOutcome.resp 200 "")).1 rfl,
   (update_lock_state_spec (LockCtx.mk true false "t" 0 "") true 5
      (LockHttpOutcome.resp 200 "")).2.1 rfl "" rfl,
   (update_lock_state_spec (LockCtx.mk true true "t" 3 "") true 5
      (LockHttpOutcome.resp 409 "locked by another client")).2.2 rfl
      (by decide)⟩

/-- Claim C8: LockContext::needsRefresh(now) is true if and only if locks are
supported, the context is locked, the configured refresh interval is positive,
and the elapsed time since lastLockTime is at least the interval (whose
configured default is 900 seconds); and it is false immediately after a
successful 200 lock response, since updateLockState then sets lastLockTime to
the current time. -/
theorem needs_refresh_spec (refreshSeconds : Int) (ctx : LockCtx)
    (now : Int) (lock : Bool) (hdr : String) :
    (needsRefresh refreshSeconds ctx now = true ↔
      (ctx.supportsLocks = true ∧ ctx.isLocked = true ∧ 0 < refreshSeconds ∧
        refreshSeconds ≤ now - ctx.lastLockTime))
    ∧ storageWopiLockingRefreshDefault = 900
    ∧ needsRefresh refreshSeconds
        (updateLockState ctx lock now (LockHttpOutcome.resp 200 hdr)).2.1
        now = false := by
  refine ⟨?_, rfl, ?_⟩
  · simp [needsRefresh, Bool.and_eq_true, and_assoc]
  · by_cases h : ctx.supportsLocks = false
    · simp [updateLockState, needsRefresh, h]
    · have h2 : ctx.supportsLocks = true := by
        cases hc : ctx.supportsLocks
        · exact absurd hc h
        · rfl
      simp [updateLockState, needsRefresh, h2]

/-- Claim C6, counterexample to the claim as stated: with no compat mode and
AllHosts empty, a first caller whose URI authority is empty leaves FirstHost
empty, and a later caller with a different, non-empty authority is then
accepted even though its authority differs from the recorded FirstHost. -/
theorem allowed_alias_counterexample :
    (allowedAlias (AliasConfig.mk false []) (fun _ _ => false) "" "").1 = true
    ∧ (allowedAlias (AliasConfig.mk false []) (fun _ _ => false) "" "").2 = ""
    ∧ (allowedAlias (AliasConfig.mk false []) (fun _ _ => false) ""
        "other.example.com").1 = true
    ∧ ¬ ("other.example.com" = "") :=
  ⟨rfl, rfl, rfl, by decide⟩

/-- Claim C6, amended: allowedAlias returns true unconditionally in compat
mode; with AllHosts non-empty it returns true iff the authority matches
AllHosts (exact or case-insensitive full-string regex); with AllHosts empty,
while FirstHost is still empty the caller authority (possibly empty) is
recorded as FirstHost and accepted, and once FirstHost is non-empty every
later call returns true iff its authority equals FirstHost — so with no alias
groups configured only the first-seen non-empty authority is ever authorized
once recorded. -/
theorem allowed_alias_spec (cfg : AliasConfig)
    (reFullMatch : String → String → Bool) (firstHost authority : String) :
    (cfg.compatMode = true →
      allowedAlias cfg reFullMatch firstHost authority = (true, firstHost))
    ∧ (cfg.compatMode = false → cfg.allHosts ≠ [] →
      (allowedAlias cfg reFullMatch firstHost authority).1 =
        matchRegex reFullMatch cfg.allHosts authority
      ∧ (allowedAlias cfg reFullMatch firstHost authority).2 = firstHost)
    ∧ (cfg.compatMode = false → cfg.allHosts = [] → firstHost = "" →
      allowedAlias cfg reFullMatch firstHost authority = (true, authority))
    ∧ (cfg.compatMode = false → cfg.allHosts = [] → firstHost ≠ "" →
      ((allowedAlias cfg reFullMatch firstHost authority).1 = true ↔
        authority = firstHost)
      ∧ (allowedAlias cfg reFullMatch firstHost authority).2 = firstHost) := by
  refine ⟨?_, ?_, ?_, ?_⟩
  · intro h
    simp [allowedAlias, h]
  · intro h hne
    have he : cfg.allHosts.isEmpty = false := by
      cases hl : cfg.allHosts with
      | nil => exact absurd hl hne
      | cons a l => rfl
    cases hm : matchRegex reFullMatch cfg.allHosts authority with
    | false => simp [allowedAlias, h, he, hm]
    | true => simp [allowedAlias, h, he, hm]
  · intro h hl hf
    simp [allowedAlias, h, hl, hf]
  · intro h hl hf
    by_cases ha : authority = firstHost
    · simp [allowedAlias, h, hl, hf, ha]
    · simp [allowedAlias, h, hl, hf, ha]

/-- Witness for allowed_alias_spec: concrete calls exercising the compat,
configured-hosts, first-record and recorded-FirstHost branches. -/
theorem allowed_alias_spec_witness :
    (allowedAlias (AliasConfig.mk true []) (fun _ _ => false) "" "a.example") =
      (true, "")
    ∧ ((allowedAlias (AliasConfig.mk false ["a.example"]) (fun _ _ => false)
        "" "a.example").1 =
      matchRegex (fun _ _ => false) ["a.example"] "a.example"
      ∧ (allowedAlias (AliasConfig.mk false ["a.example"]) (fun _ _ => false)
        "" "a.example").2 = "")
    ∧ (allowedAlias (AliasConfig.mk false []) (fun _ _ => false) ""
        "a.example") = (true, "a.example")
    ∧ (((allowedAlias (AliasConfig.mk false []) (fun _ _ => false) "a.example"
        "b.example").1 = true ↔ "b.example" = "a.example")
      ∧ (allowedAlias (AliasConfig.mk false []) (fun _ _ => false) "a.example"
        "b.example").2 = "a.example") :=
  ⟨(allowed_alias_spec (AliasConfig.mk true []) (fun _ _ => false) ""
      "a.example").1 rfl,
   (allowed_alias_spec (AliasConfig.mk false ["a.example"]) (fun _ _ => false)
      "" "a.example").2.1 rfl (by decide),
   (allowed_alias_spec (AliasConfig.mk false []) (fun _ _ => false) ""
      "a.example").2.2.1 rfl rfl rfl,
   (allowed_alias_spec (AliasConfig.mk false []) (fun _ _ => false) "a.example"
      "b.example").2.2.2 rfl rfl (by decide)⟩

/-- Claim C7: WopiStorage::downloadStorageFileToLocal resolves its download
source in order: a supplied template URI is downloaded directly with any
failure propagating; otherwise a metadata FileUrl is tried first, its success
and StorageSpaceLow propagating and every other failure falling back to the
canonical contents URL; otherwise the contents URL is downloaded and its
failures propagate. -/
theorem download_source_resolution (templateUri fileUrl : String)
    (tmplRes fileUrlRes contentsRes : Except StorageErr String) :
    (templateUri ≠ "" →
      downloadStorageFileToLocal templateUri fileUrl tmplRes fileUrlRes
        contentsRes = tmplRes)
    ∧ (templateUri = "" → fileUrl ≠ "" →
      (∀ p, fileUrlRes = Except.ok p →
        downloadStorageFileToLocal templateUri fileUrl tmplRes fileUrlRes
          contentsRes = Except.ok p)
      ∧ (fileUrlRes = Except.error StorageErr.storageSpaceLow →
        downloadStorageFileToLocal templateUri fileUrl tmplRes fileUrlRes
          contentsRes = Except.error StorageErr.storageSpaceLow)
      ∧ (∀ e, fileUrlRes = Except.error e → e ≠ StorageErr.storageSpaceLow →
        downloadStorageFileToLocal templateUri fileUrl tmplRes fileUrlRes
          contentsRes = contentsRes))
    ∧ (templateUri = "" → fileUrl = "" →
      downloadStorageFileToLocal templateUri fileUrl tmplRes fileUrlRes
        contentsRes = contentsRes) := by
  refine ⟨?_, ?_, ?_⟩
  · intro h
    simp [downloadStorageFileToLocal, h]
  · intro ht hf
    refine ⟨?_, ?_, ?_⟩
    · intro p hp
      subst hp
      simp [downloadStorageFileToLocal, ht, hf]
    · intro hp
      subst hp
      simp [downloadStorageFileToLocal, ht, hf]
    · intro e he hne
      subst he
      cases e with
      | storageSpaceLow => exact absurd rfl hne
      | unauthorizedRequest => simp [downloadStorageFileToLocal, ht, hf]
      | storageConnection => simp [downloadStorageFileToLocal, ht, hf]
  · intro ht hf
    simp [downloadStorageFileToLocal, ht, hf]

/-- Witness for download_source_resolution: concrete outcomes for the
template path, the FileUrl fallback on a connection failure, and the
contents path. -/
theorem download_source_resolution_witness :
    downloadStorageFileToLocal "tmpl" "" (Except.ok "t") (Except.ok "f")
      (Except.ok "c") = Except.ok "t"
    ∧ downloadStorageFileToLocal "" "fu" (Except.ok "t")
      (Except.error StorageErr.storageConnection) (Except.ok "c") =
      Except.ok "c"
    ∧ downloadStorageFileToLocal "" "" (Except.ok "t") (Except.ok "f")
      (Except.ok "c") = Except.ok "c" :=
  ⟨(download_source_resolution "tmpl" "" (Except.ok "t") (Except.ok "f")
      (Except.ok "c")).1 (by decide),
   ((download_source_resolution "" "fu" (Except.ok "t")
      (Except.error StorageErr.storageConnection) (Except.ok "c")).2.1 rfl
      (by decide)).2.2 StorageErr.storageConnection rfl (by decide),
   (download_source_resolution "" "" (Except.ok "t") (Except.ok "f")
      (Except.ok "c")).2.2 rfl rfl⟩

/-- Claim C10, counterexample to the claim as stated: sanitizeUri clears only
the first access_token query parameter, so a URI carrying two access_token
parameters still stores a non-empty access_token value after going through
setUri (as the constructor and the redirect path do). -/
theorem sanitize_uri_counterexample :
    hasNonEmptyAccessToken (setUri dupTokenUri) = true
    ∧ (setUri dupTokenUri).query =
      [("access_token", ""), ("access_token", "secretB")] :=
  ⟨rfl, rfl⟩

/-- Claim C10, amended: every StorageBase stored URI goes through setUri,
which clears the value of the first access_token query parameter via
sanitizeUri while leaving all keys and all non-access_token parameters
intact; hence, provided each incoming URI (initial and every redirect
Location) carries at most one access_token parameter, the stored URI never
carries a non-empty access_token value, including across the redirect-driven
replacements of the metadata fetch. -/
theorem sanitize_uri_spec (u : Uri) (server : Nat → HttpResp)
    (limit hop : Nat) (stored : Uri) :
    (accessTokenCount u ≤ 1 → hasNonEmptyAccessToken (setUri u) = false)
    ∧ (sanitizeUri u).query.map Prod.fst = u.query.map Prod.fst
    ∧ (sanitizeUri u).query.filter (fun kv => kv.1 ≠ "access_token") =
      u.query.filter (fun kv => kv.1 ≠ "access_token")
    ∧ (hasNonEmptyAccessToken stored = false →
      (∀ i, accessTokenCount (server i).location ≤ 1) →
      hasNonEmptyAccessToken
        (getWOPIFileInfoForUri server hop limit stored).storedUri = false) := by
  refine ⟨?_, ?_, ?_, ?_⟩
  · exact setUri_no_nonempty u
  · exact clearFirst_keys u.query
  · exact clearFirst_others u.query
  · exact fetch_stored_no_token server limit hop stored

/-- Witness for sanitize_uri_spec: a URI with one access_token parameter and
a constant-response server. -/
theorem sanitize_uri_spec_witness :
    hasNonEmptyAccessToken
      (setUri (Uri.mk "https" "wopihost" "/wopi/files/7"
        [("access_token", "secretA"), ("permission", "edit")])) = false
    ∧ hasNonEmptyAccessToken
      (getWOPIFileInfoForUri (fun _ => okJsonResp) RedirectionLimit 0
        sampleUri).storedUri = false :=
  ⟨(sanitize_uri_spec
      (Uri.mk "https" "wopihost" "/wopi/files/7"
        [("access_token", "secretA"), ("permission", "edit")])
      (fun _ => okJsonResp) RedirectionLimit 0 sampleUri).1 (by decide),
   (sanitize_uri_spec
      (Uri.mk "https" "wopihost" "/wopi/files/7"
        [("access_token", "secretA"), ("permission", "edit")])
      (fun _ => okJsonResp) RedirectionLimit 0 sampleUri).2.2.2 (by decide)
      (fun _ => by decide)⟩

end StorageProof
